import Mathlib

/-!
Verification development for the four-letter-word administrative command
subsystem of a ZooKeeper-compatible coordination service
(src/src/Coordination/FourLetterCommand.h): the code/name codec, the command
registry with its whitelist, the execution protocol, and the sixteen concrete
commands. Only the header is available; bodies that live in the
implementation file are modelled from the specification and marked as such.
-/

set_option autoImplicit false
set_option maxHeartbeats 1000000

namespace FourLetter

/-- Errors of the codec and registry. `invalidCommandName` is raised by
`toCode` when the name length is not 4 (spec 4.1, 7); duplicate registration
is the fatal startup error of `registerCommand` (spec 4.2, 7). -/
inductive FactoryError where
  | invalidCommandName
  | duplicateRegistration
  deriving DecidableEq, Repr

/-- Modelled from the spec: the body of IFourLetterCommand toCode is not under
src (only its declaration, FourLetterCommand.h line 36). Spec 4.1: requires
the name to be exactly 4 characters, fails with InvalidCommandName otherwise;
packs the four character byte values into a 32-bit integer, character 0 in
the most significant byte, character 3 in the least significant byte. A name
is a list of byte values; each entry is reduced mod 256 exactly as a C++ char
occupies one byte, and 16777216 = 2^24, 65536 = 2^16. -/
def toCode (name : List Nat) : Except FactoryError Nat :=
  match name with
  | [a, b, c, d] =>
    Except.ok (a % 256 * 16777216 + b % 256 * 65536 + c % 256 * 256 + d % 256)
  | _ => Except.error FactoryError.invalidCommandName

/-- Modelled from the spec: the body of IFourLetterCommand toName is not under
src (declaration at FourLetterCommand.h line 35). Spec 4.1: unpacks the
integer back into the 4-character string, most significant byte first. -/
def toName (code : Nat) : List Nat :=
  [code / 16777216 % 256, code / 65536 % 256, code / 256 % 256, code % 256]

deriving instance DecidableEq for Except

/-- Byte values of an ASCII string literal; used to transcribe the inline
name() bodies from the header into the byte-list representation. -/
def nameBytes (s : String) : List Nat := s.data.map Char.toNat

/-- Server role reported by the dispatcher (zk_server_state in mntr). -/
inductive ServerRole where
  | leader
  | follower
  | standalone
  deriving DecidableEq, Repr

/-- Modelled from the spec: the KeeperDispatcher itself is an external
collaborator (its header is not under src). This state gathers the read/admin
accessors the commands consume (spec 6): latency and packet counters, role,
node/watch/ephemeral counts, data size, file descriptors, leader-only
follower counts, the connection table summarised by its count and
per-connection packet counters, the read-only flag, the configuration
snapshot, and the on-disk snapshot/log sizes. -/
structure KeeperDispatcherState where
  version : String
  avg_latency : Nat
  max_latency : Nat
  min_latency : Nat
  packets_received : Nat
  packets_sent : Nat
  outstanding_requests : Nat
  role : ServerRole
  znode_count : Nat
  watch_count : Nat
  ephemerals_count : Nat
  approximate_data_size : Nat
  open_fd_count : Nat
  max_fd_count : Nat
  followers : Nat
  synced_followers : Nat
  pending_syncs : Nat
  connection_count : Nat
  conn_packets : List (Nat × Nat)
  read_only : Bool
  conf_entries : List (String × String)
  snapshot_dir_size : Nat
  log_dir_size : Nat
  deriving DecidableEq, Repr

/-- A four letter command, after IFourLetterCommand (header lines 23-40):
a name and a run operation. Since srst and crst mutate dispatcher-owned
counters, run returns the response text together with the dispatcher state
after the call; read-only commands return the state unchanged. -/
structure FourLetterCommand where
  name : List Nat
  run : KeeperDispatcherState → String × KeeperDispatcherState

/-- Renders key-value lines, one per pair, key and value separated by a tab. -/
def renderLines (fields : List (String × String)) : String :=
  fields.foldr (fun kv acc => kv.1 ++ "\t" ++ kv.2 ++ "\n" ++ acc) ""

/-- Text of a server role as printed by mntr. -/
def roleName : ServerRole → String
  | ServerRole.leader => "leader"
  | ServerRole.follower => "follower"
  | ServerRole.standalone => "standalone"

/-- Modelled from the spec: the body of MonitorCommand run is not under src.
Spec 4.4 and the header comment (lines 88-108): ordered key-value lines —
version, latency stats, packet counters, outstanding requests, server state,
node/watch/ephemeral counts, data size, file descriptor counts, and the three
follower keys only when the server role is leader. The platform split for the
file descriptor lines is a compile-time matter outside the model; they are
kept unconditionally. -/
def mntrFields (st : KeeperDispatcherState) : List (String × String) :=
  [("zk_version", st.version),
   ("zk_avg_latency", toString st.avg_latency),
   ("zk_max_latency", toString st.max_latency),
   ("zk_min_latency", toString st.min_latency),
   ("zk_packets_received", toString st.packets_received),
   ("zk_packets_sent", toString st.packets_sent),
   ("zk_outstanding_requests", toString st.outstanding_requests),
   ("zk_server_state", roleName st.role),
   ("zk_znode_count", toString st.znode_count),
   ("zk_watch_count", toString st.watch_count),
   ("zk_ephemerals_count", toString st.ephemerals_count),
   ("zk_approximate_data_size", toString st.approximate_data_size),
   ("zk_open_file_descriptor_count", toString st.open_fd_count),
   ("zk_max_file_descriptor_count", toString st.max_fd_count)]
  ++ (match st.role with
      | ServerRole.leader =>
        [("zk_followers", toString st.followers),
         ("zk_synced_followers", toString st.synced_followers),
         ("zk_pending_syncs", toString st.pending_syncs)]
      | _ => [])

/-- RuokCommand (header lines 79-86). Run modelled from the spec: the literal
imok, regardless of dispatcher state. -/
def RuokCommand : FourLetterCommand :=
  { name := nameBytes "ruok", run := fun st => ("imok", st) }

/-- MonitorCommand (header lines 109-120). Run modelled from the spec:
renders the mntr key-value lines. -/
def MonitorCommand : FourLetterCommand :=
  { name := nameBytes "mntr", run := fun st => (renderLines (mntrFields st), st) }

/-- StatResetCommand (header lines 122-129). Run modelled from the spec
(4.4 srst): resets accumulated latency and packet counters to zero and
returns a confirmation line; must not reset connection counts or watch/node
state. -/
def StatResetCommand : FourLetterCommand :=
  { name := nameBytes "srst",
    run := fun st =>
      ("Server stats reset.\n",
       { st with avg_latency := 0, max_latency := 0, min_latency := 0,
                 packets_received := 0, packets_sent := 0 }) }

/-- Modelled from the spec: the fixed advisory text of the nopc command
(4.4 nopc), stating the requested command is not enabled. The body of
NopCommand run is not under src, so the exact wording is representative. -/
def nopcAdvisoryText : String := "The command is not in the white list.\n"

/-- NopCommand (header lines 131-140): replies with the fixed advisory text
and has no side effects. -/
def NopCommand : FourLetterCommand :=
  { name := nameBytes "nopc", run := fun st => (nopcAdvisoryText, st) }

/-- Renders configuration entries as key=value lines. -/
def renderConf (entries : List (String × String)) : String :=
  entries.foldr (fun kv acc => kv.1 ++ "=" ++ kv.2 ++ "\n" ++ acc) ""

/-- ConfCommand (header lines 142-149). Run modelled from the spec: effective
server configuration as key=value lines. -/
def ConfCommand : FourLetterCommand :=
  { name := nameBytes "conf", run := fun st => (renderConf st.conf_entries, st) }

/-- ConsCommand (header lines 151-160). Run modelled from the spec: one line
per live connection; the connection table is summarised in the model by its
per-connection packet counters. -/
def ConsCommand : FourLetterCommand :=
  { name := nameBytes "cons",
    run := fun st =>
      (renderLines (st.conn_packets.map
        (fun p => ("recved=" ++ toString p.1, "sent=" ++ toString p.2))), st) }

/-- RestConnStatsCommand (header lines 162-170). Run modelled from the spec
(4.4 crst): resets per-connection statistics for all live connections and
returns a confirmation line. -/
def RestConnStatsCommand : FourLetterCommand :=
  { name := nameBytes "crst",
    run := fun st =>
      ("Connection stats reset.\n",
       { st with conn_packets := st.conn_packets.map (fun _ => (0, 0)) }) }

/-- ServerStatCommand (header lines 172-180). Run modelled from the spec:
multi-line detailed stats rendered from the dispatcher accessors. -/
def ServerStatCommand : FourLetterCommand :=
  { name := nameBytes "srvr",
    run := fun st =>
      (renderLines
        [("Zookeeper version", st.version),
         ("Latency min/avg/max",
          toString st.min_latency ++ "/" ++ toString st.avg_latency ++ "/" ++
            toString st.max_latency),
         ("Received", toString st.packets_received),
         ("Sent", toString st.packets_sent),
         ("Connections", toString st.connection_count),
         ("Outstanding", toString st.outstanding_requests),
         ("Mode", roleName st.role),
         ("Node count", toString st.znode_count)], st) }

/-- StatCommand (header lines 182-190). Run modelled from the spec: brief
version of srvr plus an abbreviated connection list. -/
def StatCommand : FourLetterCommand :=
  { name := nameBytes "stat",
    run := fun st =>
      ("Clients: " ++ toString st.connection_count ++ "\n" ++
       "Mode: " ++ roleName st.role ++ "\n" ++
       "Node count: " ++ toString st.znode_count ++ "\n", st) }

/-- BriefWatchCommand (header lines 192-200). Run modelled from the spec:
summary watch counts. -/
def BriefWatchCommand : FourLetterCommand :=
  { name := nameBytes "wchs",
    run := fun st => (toString st.watch_count ++ " watches total\n", st) }

/-- WatchCommand (header lines 202-212). Run modelled from the spec: detailed
watches by session; the per-session breakdown is outside the modelled
dispatcher state, so the rendering is summarised by the watch count. -/
def WatchCommand : FourLetterCommand :=
  { name := nameBytes "wchc",
    run := fun st => ("Watches by session: " ++ toString st.watch_count ++ "\n", st) }

/-- WatchByPathCommand (header lines 214-224). Run modelled from the spec:
detailed watches by path, summarised by the watch count. -/
def WatchByPathCommand : FourLetterCommand :=
  { name := nameBytes "wchp",
    run := fun st => ("Watches by path: " ++ toString st.watch_count ++ "\n", st) }

/-- DumpCommand (header lines 226-234). Run modelled from the spec: leader
only; on a non-leader an explanatory message is returned instead of data. -/
def DumpCommand : FourLetterCommand :=
  { name := nameBytes "dump",
    run := fun st =>
      (if st.role = ServerRole.leader then
        "Sessions with Ephemerals: " ++ toString st.ephemerals_count ++ "\n"
       else "This command is only run by the leader.\n", st) }

/-- EnviCommand (header lines 236-244). Run modelled from the spec: key=value
environment lines, summarised by the version string. -/
def EnviCommand : FourLetterCommand :=
  { name := nameBytes "envi",
    run := fun st => ("zk.version=" ++ st.version ++ "\n", st) }

/-- DataSizeCommand (header lines 246-254). Run modelled from the spec: total
on-disk bytes of snapshot files and of log files, as two values. -/
def DataSizeCommand : FourLetterCommand :=
  { name := nameBytes "dirs",
    run := fun st =>
      ("snapshot_dir_size: " ++ toString st.snapshot_dir_size ++ "\n" ++
       "log_dir_size: " ++ toString st.log_dir_size ++ "\n", st) }

/-- IsReadOnlyCommand (header lines 256-265). Run modelled from the spec:
the literal ro when the dispatcher is in read-only mode, else rw. -/
def IsReadOnlyCommand : FourLetterCommand :=
  { name := nameBytes "isro",
    run := fun st => (if st.read_only then "ro" else "rw", st) }

/-- The sixteen concrete commands, in header order (lines 79-265). -/
def allCommands : List FourLetterCommand :=
  [RuokCommand, MonitorCommand, StatResetCommand, NopCommand, ConfCommand,
   ConsCommand, RestConnStatsCommand, ServerStatCommand, StatCommand,
   BriefWatchCommand, WatchCommand, WatchByPathCommand, DumpCommand,
   EnviCommand, DataSizeCommand, IsReadOnlyCommand]

/-- The allow-all sentinel code (header line 48: static constexpr Int32
WHITE_LIST_ALL = 0). -/
def WHITE_LIST_ALL : Nat := 0

/-- Whitelist of the factory. Spec 3: either the allow-all sentinel or an
explicit set of enabled codes. The header (line 46) stores it as a vector of
codes whose interpretation lives in the implementation file, so the two
spec-level cases are modelled as an inductive. -/
inductive WhiteList where
  | allowAll
  | explicitList (codes : List Nat)
  deriving DecidableEq, Repr

/-- FourLetterCommandFactory (header lines 42-70): the initialized flag, the
code-to-command mapping (an unordered_map, modelled as an association list)
and the whitelist. -/
structure FourLetterCommandFactory where
  initialized : Bool
  commands : List (Nat × FourLetterCommand)
  white_list : WhiteList

/-- The factory before any registration: flag down, no commands, an empty
explicit whitelist (the default-constructed vector of the header). -/
def emptyFactory : FourLetterCommandFactory :=
  { initialized := false, commands := [], white_list := WhiteList.explicitList [] }

/-- Modelled from the spec: the body of isKnown is not under src (declaration
at header line 50). Spec 4.2: true iff the code is a registry key. -/
def isKnown (f : FourLetterCommandFactory) (c : Nat) : Bool :=
  (f.commands.lookup c).isSome

/-- Modelled from the spec: the body of get is not under src (declaration at
header line 53). Spec 4.2: the registered command for the code, or an empty
result (an empty shared pointer, modelled as none) if unknown. -/
def get (f : FourLetterCommandFactory) (c : Nat) : Option FourLetterCommand :=
  f.commands.lookup c

/-- Modelled from the spec: the body of isEnabled is not under src
(declaration at header line 51). Spec 4.2: true iff the whitelist is the
allow-all sentinel, or the code is a member of the explicit whitelist set. -/
def isEnabled (f : FourLetterCommandFactory) (c : Nat) : Bool :=
  match f.white_list with
  | WhiteList.allowAll => true
  | WhiteList.explicitList codes => codes.contains c

/-- Modelled from the spec: the body of registerCommand is not under src
(declaration at header line 56). Spec 4.2: inserts the command under the code
computed by the codec from its name; registering a code already present is a
fatal programming error, modelled as the duplicate-registration error. -/
def registerCommand (f : FourLetterCommandFactory) (cmd : FourLetterCommand) :
    Except FactoryError FourLetterCommandFactory :=
  match toCode cmd.name with
  | Except.error e => Except.error e
  | Except.ok c =>
    if isKnown f c then Except.error FactoryError.duplicateRegistration
    else Except.ok { f with commands := f.commands ++ [(c, cmd)] }

/-- Registers a list of commands in order, stopping at the first fatal
error; models the registerCommands startup sequence (header line 64). -/
def registerAll (f : FourLetterCommandFactory) (cmds : List FourLetterCommand) :
    Except FactoryError FourLetterCommandFactory :=
  match cmds with
  | [] => Except.ok f
  | cmd :: rest =>
    match registerCommand f cmd with
    | Except.error e => Except.error e
    | Except.ok f2 => registerAll f2 rest

/-- Startup configuration surface for the whitelist (spec 6): either no
enabled-command list is configured, or the allow-all directive is given, or
an explicit list of command names is given. -/
inductive WhiteListConfig where
  | absent
  | allowAllDirective
  | names (l : List (List Nat))
  deriving DecidableEq, Repr

/-- Converts each configured command name via the codec, propagating the
codec error. -/
def codesOfNames (l : List (List Nat)) : Except FactoryError (List Nat) :=
  match l with
  | [] => Except.ok []
  | n :: rest =>
    match toCode n with
    | Except.error e => Except.error e
    | Except.ok c =>
      match codesOfNames rest with
      | Except.error e => Except.error e
      | Except.ok cs => Except.ok (c :: cs)

/-- Modelled from the spec: the body of initializeWhiteList is not under src
(declaration at header line 57). Spec 3 and 4.2: reads the configured list of
enabled command names or the allow-all directive; absence of configuration
resolves to the explicit allow-all sentinel, never to an empty set; converts
each name via the codec, stores the resulting set or sentinel, and sets the
initialized flag. -/
def initializeWhiteList (f : FourLetterCommandFactory) (conf : WhiteListConfig) :
    Except FactoryError FourLetterCommandFactory :=
  match conf with
  | WhiteListConfig.absent =>
    Except.ok { f with white_list := WhiteList.allowAll, initialized := true }
  | WhiteListConfig.allowAllDirective =>
    Except.ok { f with white_list := WhiteList.allowAll, initialized := true }
  | WhiteListConfig.names l =>
    match codesOfNames l with
    | Except.error e => Except.error e
    | Except.ok cs =>
      Except.ok { f with white_list := WhiteList.explicitList cs, initialized := true }

/-- The public flag setter from the header (line 61), whose body is in src:
it simply assigns the flag. Renamed with a Flag suffix in this development. -/
def setInitializeFlag (f : FourLetterCommandFactory) (flag : Bool) :
    FourLetterCommandFactory :=
  { f with initialized := flag }

/-- One operation of the public interface of the factory (header lines
44-64). -/
inductive FactoryOp where
  | isKnownOp (c : Nat)
  | isEnabledOp (c : Nat)
  | getOp (c : Nat)
  | isInitializedOp
  | checkInitializationOp
  | registerCommandOp (cmd : FourLetterCommand)
  | initializeWhiteListOp (conf : WhiteListConfig)
  | setInitializeFlagOp (flag : Bool)

/-- State effect of one public factory operation. Query operations return
values but leave the state unchanged; a mutator that throws (the C++ throw
happens before any insertion) leaves the state unchanged as well. -/
def applyOp (f : FourLetterCommandFactory) (op : FactoryOp) :
    FourLetterCommandFactory :=
  match op with
  | FactoryOp.registerCommandOp cmd =>
    match registerCommand f cmd with
    | Except.ok f2 => f2
    | Except.error _ => f
  | FactoryOp.initializeWhiteListOp conf =>
    match initializeWhiteList f conf with
    | Except.ok f2 => f2
    | Except.error _ => f
  | FactoryOp.setInitializeFlagOp flag => setInitializeFlag f flag
  | _ => f

/-- True for the read-only operations of the public interface. -/
def isQueryOp : FactoryOp → Bool
  | FactoryOp.isKnownOp _ => true
  | FactoryOp.isEnabledOp _ => true
  | FactoryOp.getOp _ => true
  | FactoryOp.isInitializedOp => true
  | FactoryOp.checkInitializationOp => true
  | _ => false

/-- Modelled from the spec: the per-connection execution protocol (4.3).
The four bytes have been read and decoded to a code; a known but disabled
code runs the reserved nopc command instead of the requested one; a known and
enabled code runs the registered command; a genuinely unregistered code is
the external demultiplexer's responsibility, modelled as none. -/
def executeRequest (f : FourLetterCommandFactory) (st : KeeperDispatcherState)
    (c : Nat) : Option (String × KeeperDispatcherState) :=
  if isKnown f c then
    if isEnabled f c then (get f c).map (fun cmd => cmd.run st)
    else some (NopCommand.run st)
  else none

/-- Code of a command name given as a string literal, with 0 for the
impossible error case; convenience for concrete scenarios. -/
def codeOfName (s : String) : Nat :=
  match toCode (nameBytes s) with
  | Except.ok c => c
  | Except.error _ => 0

/-- All sixteen commands registered, flag still down. -/
def registeredFactory : FourLetterCommandFactory :=
  match registerAll emptyFactory allCommands with
  | Except.ok f => f
  | Except.error _ => emptyFactory

/-- The spec 8 scenario: sixteen commands registered, whitelist restricted to
ruok and stat. -/
def scenarioFactory : FourLetterCommandFactory :=
  match initializeWhiteList registeredFactory
      (WhiteListConfig.names [nameBytes "ruok", nameBytes "stat"]) with
  | Except.ok f => f
  | Except.error _ => emptyFactory

/-- A factory initialized with the allow-all directive over an empty
registry. -/
def allowAllFactory : FourLetterCommandFactory :=
  match initializeWhiteList emptyFactory WhiteListConfig.allowAllDirective with
  | Except.ok f => f
  | Except.error _ => emptyFactory

/-- Sixteen commands registered, then initialized with absent whitelist
configuration. -/
def absentConfFactory : FourLetterCommandFactory :=
  match initializeWhiteList registeredFactory WhiteListConfig.absent with
  | Except.ok f => f
  | Except.error _ => emptyFactory

/-- Only ruok registered; used as a small concrete registration. -/
def ruokOnlyFactory : FourLetterCommandFactory :=
  match registerAll emptyFactory [RuokCommand] with
  | Except.ok f => f
  | Except.error _ => emptyFactory

/-- A concrete dispatcher state, after the sample in the header comment
(lines 88-108). -/
def sampleState : KeeperDispatcherState :=
  { version := "3.5.9", avg_latency := 1, max_latency := 10, min_latency := 0,
    packets_received := 70, packets_sent := 69, outstanding_requests := 0,
    role := ServerRole.leader, znode_count := 4, watch_count := 3,
    ephemerals_count := 0, approximate_data_size := 27, open_fd_count := 23,
    max_fd_count := 1024, followers := 2, synced_followers := 2,
    pending_syncs := 0, connection_count := 5, conn_packets := [(12, 11), (3, 3)],
    read_only := false, conf_entries := [("server_id", "1")],
    snapshot_dir_size := 1024, log_dir_size := 2048 }

/-- Modelled from the spec: the body of the code() member is not under src
(declaration at header line 33); spec 3 invariant (a): a command's own code
is the codec applied to its name. The error case cannot occur for the fixed
command constants and is mapped to 0. -/
def commandCode (cmd : FourLetterCommand) : Nat :=
  match toCode cmd.name with
  | Except.ok c => c
  | Except.error _ => 0

/-! Helper lemmas. -/

/-- Unpacking a packed code recovers the four byte values. -/
theorem unpack_pack (a b c d : Nat) (ha : a < 256) (hb : b < 256)
    (hc : c < 256) (hd : d < 256) :
    toName (a % 256 * 16777216 + b % 256 * 65536 + c % 256 * 256 + d % 256) =
      [a, b, c, d] := by
  simp only [toName, List.cons.injEq, and_true]
  omega

/-- A list of length four is a four-element list. -/
theorem exists_four_of_length_eq (l : List Nat) (hlen : l.length = 4) :
    ∃ a b c d, l = [a, b, c, d] := by
  rcases l with _ | ⟨a, _ | ⟨b, _ | ⟨c, _ | ⟨d, _ | ⟨e, rest⟩⟩⟩⟩⟩
  · simp at hlen
  · simp at hlen
  · simp at hlen
  · simp at hlen
  · exact ⟨a, b, c, d, rfl⟩
  · simp at hlen

/-! Claim theorems. -/

/-- C1: for every valid 4-character name, toName (toCode name) is the name
again, and for every code produced by toCode, encoding its decoded name gives
the code back; the triple composition law follows. -/
theorem C1_codec_roundtrip (name : List Nat) (hlen : name.length = 4)
    (hbytes : ∀ x ∈ name, x < 256) :
    (toCode name).map toName = Except.ok name ∧
    (∀ c : Nat, toCode name = Except.ok c → toCode (toName c) = Except.ok c) := by
  obtain ⟨a, b, c, d, rfl⟩ := exists_four_of_length_eq name hlen
  have ha : a < 256 := hbytes a (by simp)
  have hb : b < 256 := hbytes b (by simp)
  have hc : c < 256 := hbytes c (by simp)
  have hd : d < 256 := hbytes d (by simp)
  constructor
  · simp only [toCode, Except.map]
    rw [unpack_pack a b c d ha hb hc hd]
  · intro k hk
    have hpack : k = a % 256 * 16777216 + b % 256 * 65536 + c % 256 * 256 + d % 256 := by
      simp only [toCode, Except.ok.injEq] at hk
      omega
    subst hpack
    rw [unpack_pack a b c d ha hb hc hd]
    rfl

/-- C1 witness: the round trip at the concrete name ruok. -/
theorem C1_codec_roundtrip_witness :
    ([114, 117, 111, 107] : List Nat).length = 4 ∧
    ((toCode [114, 117, 111, 107]).map toName = Except.ok [114, 117, 111, 107] ∧
     ∀ c : Nat, toCode [114, 117, 111, 107] = Except.ok c →
       toCode (toName c) = Except.ok c) :=
  ⟨by decide, C1_codec_roundtrip [114, 117, 111, 107] (by decide) (by decide)⟩

/-- C2: toCode fails with InvalidCommandName exactly when the name length is
not 4; on a four-byte name it returns the 32-bit packing with byte 0 most
significant and byte 3 least significant. -/
theorem C2_toCode_contract (name : List Nat) :
    (toCode name = Except.error FactoryError.invalidCommandName ↔
      name.length ≠ 4) ∧
    (∀ a b c d : Nat, name = [a, b, c, d] → a < 256 → b < 256 → c < 256 →
      d < 256 →
      toCode name = Except.ok (a * 16777216 + b * 65536 + c * 256 + d)) := by
  constructor
  · rcases name with _ | ⟨a, _ | ⟨b, _ | ⟨c, _ | ⟨d, _ | ⟨e, rest⟩⟩⟩⟩⟩ <;>
      simp [toCode]
  · rintro a b c d rfl ha hb hc hd
    simp only [toCode, Except.ok.injEq]
    omega

/-- C2 witness: the contract at the concrete name conf. -/
theorem C2_toCode_contract_witness :
    (toCode [99, 111, 110, 102] = Except.error FactoryError.invalidCommandName ↔
      ([99, 111, 110, 102] : List Nat).length ≠ 4) ∧
    toCode [99, 111, 110, 102] =
      Except.ok (99 * 16777216 + 111 * 65536 + 110 * 256 + 102) :=
  ⟨(C2_toCode_contract [99, 111, 110, 102]).1,
   (C2_toCode_contract [99, 111, 110, 102]).2 99 111 110 102 rfl (by decide)
     (by decide) (by decide) (by decide)⟩

/-- Lookup over an appended association list succeeds iff it succeeds in one
of the parts. -/
theorem lookup_append_isSome (l1 l2 : List (Nat × FourLetterCommand)) (c : Nat) :
    ((l1 ++ l2).lookup c).isSome = ((l1.lookup c).isSome || (l2.lookup c).isSome) := by
  induction l1 with
  | nil => simp
  | cons p t ih =>
    rcases p with ⟨k, v⟩
    rcases h : c == k
    · simp [List.lookup, h, ih]
    · simp [List.lookup, h]

/-- A successful registration appends the command under its own code, requires
the code fresh, and leaves flag and whitelist alone. -/
theorem registerCommand_ok (f f2 : FourLetterCommandFactory)
    (cmd : FourLetterCommand) (h : registerCommand f cmd = Except.ok f2) :
    ∃ c, toCode cmd.name = Except.ok c ∧ isKnown f c = false ∧
      f2.commands = f.commands ++ [(c, cmd)] ∧
      f2.initialized = f.initialized ∧ f2.white_list = f.white_list := by
  unfold registerCommand at h
  rcases htc : toCode cmd.name with e | c
  · simp only [htc] at h
    exact Except.noConfusion h
  · simp only [htc] at h
    rcases hk : isKnown f c
    · simp only [hk] at h
      simp only [Bool.false_eq_true, if_false, Except.ok.injEq] at h
      subst h
      exact ⟨c, rfl, hk, rfl, rfl, rfl⟩
    · simp [hk] at h

/-- Codes known after a successful bulk registration are the codes known
before plus the codes of the registered commands. -/
theorem registerAll_isKnown (cmds : List FourLetterCommand)
    (f0 f : FourLetterCommandFactory) (h : registerAll f0 cmds = Except.ok f)
    (c : Nat) :
    isKnown f c = true ↔
      (isKnown f0 c = true ∨ ∃ cmd ∈ cmds, toCode cmd.name = Except.ok c) := by
  induction cmds generalizing f0 with
  | nil =>
    simp only [registerAll, Except.ok.injEq] at h
    subst h
    simp
  | cons cmd rest ih =>
    simp only [registerAll] at h
    rcases hrc : registerCommand f0 cmd with e | f1
    · simp only [hrc] at h
      exact Except.noConfusion h
    · simp only [hrc] at h
      obtain ⟨c0, htc, hk0, hcmds, _, _⟩ := registerCommand_ok f0 f1 cmd hrc
      have h1 : isKnown f1 c = (isKnown f0 c || (c == c0)) := by
        unfold isKnown
        rw [hcmds, lookup_append_isSome]
        rcases hbe : c == c0
        · simp only [List.lookup, hbe, Option.isSome_none, Bool.or_false]
        · simp only [List.lookup, hbe, Option.isSome_some, Bool.or_true]
      rw [ih f1 h, h1]
      simp only [Bool.or_eq_true, beq_iff_eq]
      constructor
      · rintro ((hx | hx) | hx)
        · exact Or.inl hx
        · exact Or.inr ⟨cmd, by simp, by rw [htc, hx]⟩
        · obtain ⟨cmd2, hmem, htc2⟩ := hx
          exact Or.inr ⟨cmd2, by simp [hmem], htc2⟩
      · rintro (hx | ⟨cmd2, hmem, htc2⟩)
        · exact Or.inl (Or.inl hx)
        · rcases List.mem_cons.mp hmem with rfl | hmem2
          · rw [htc] at htc2
            injection htc2 with hce
            exact Or.inl (Or.inr hce.symm)
          · exact Or.inr ⟨cmd2, hmem2, htc2⟩

/-- Bulk registration leaves the flag and the whitelist alone. -/
theorem registerAll_fields (cmds : List FourLetterCommand)
    (f0 f : FourLetterCommandFactory) (h : registerAll f0 cmds = Except.ok f) :
    f.initialized = f0.initialized ∧ f.white_list = f0.white_list := by
  induction cmds generalizing f0 with
  | nil =>
    simp only [registerAll, Except.ok.injEq] at h
    subst h
    exact ⟨rfl, rfl⟩
  | cons cmd rest ih =>
    simp only [registerAll] at h
    rcases hrc : registerCommand f0 cmd with e | f1
    · simp only [hrc] at h
      exact Except.noConfusion h
    · simp only [hrc] at h
      obtain ⟨c0, _, _, _, hi, hw⟩ := registerCommand_ok f0 f1 cmd hrc
      obtain ⟨hi2, hw2⟩ := ih f1 h
      exact ⟨hi2.trans hi, hw2.trans hw⟩

/-- C5: a code is known exactly when some command of the registered list has
that code, and get on an unknown code is the empty result, never a fault. -/
theorem C5_isKnown_get (cmds : List FourLetterCommand)
    (f : FourLetterCommandFactory)
    (h : registerAll emptyFactory cmds = Except.ok f) (c : Nat) :
    (isKnown f c = true ↔ ∃ cmd ∈ cmds, toCode cmd.name = Except.ok c) ∧
    (isKnown f c = false → get f c = none) := by
  constructor
  · rw [registerAll_isKnown cmds emptyFactory f h c]
    simp [isKnown, emptyFactory]
  · intro hk
    unfold isKnown at hk
    unfold get
    rcases hl : f.commands.lookup c with _ | v
    · rfl
    · rw [hl] at hk
      simp at hk

/-- C5 witness: a registry holding only ruok, probed at the code of mntr. -/
theorem C5_isKnown_get_witness :
    registerAll emptyFactory [RuokCommand] = Except.ok ruokOnlyFactory ∧
    ((isKnown ruokOnlyFactory (codeOfName "mntr") = true ↔
       ∃ cmd ∈ [RuokCommand],
         toCode cmd.name = Except.ok (codeOfName "mntr")) ∧
     (isKnown ruokOnlyFactory (codeOfName "mntr") = false →
       get ruokOnlyFactory (codeOfName "mntr") = none)) :=
  ⟨rfl, C5_isKnown_get [RuokCommand] ruokOnlyFactory rfl (codeOfName "mntr")⟩

/-- C3: after initialization the flag is up, and isEnabled holds exactly when
the whitelist is the allow-all sentinel or the code belongs to the explicit
set; hence every registered code is enabled under allow-all, and isEnabled is
set membership under an explicit set. -/
theorem C3_isEnabled_whitelist (f f2 : FourLetterCommandFactory)
    (conf : WhiteListConfig)
    (h : initializeWhiteList f conf = Except.ok f2) (c : Nat) :
    f2.initialized = true ∧
    (isEnabled f2 c = true ↔
      (f2.white_list = WhiteList.allowAll ∨
       ∃ l, f2.white_list = WhiteList.explicitList l ∧ c ∈ l)) ∧
    (f2.white_list = WhiteList.allowAll → isKnown f2 c = true →
      isEnabled f2 c = true) ∧
    (∀ l, f2.white_list = WhiteList.explicitList l →
      (isEnabled f2 c = true ↔ c ∈ l)) := by
  have hinit : f2.initialized = true := by
    rcases conf with _ | _ | l
    · simp only [initializeWhiteList, Except.ok.injEq] at h
      rw [← h]
    · simp only [initializeWhiteList, Except.ok.injEq] at h
      rw [← h]
    · simp only [initializeWhiteList] at h
      rcases hcs : codesOfNames l with e | cs
      · rw [hcs] at h
        cases h
      · rw [hcs] at h
        simp only [Except.ok.injEq] at h
        rw [← h]
  refine ⟨hinit, ?_, ?_, ?_⟩
  · unfold isEnabled
    rcases hwl : f2.white_list with _ | codes
    · simp
    · simp
  · intro hwl _
    unfold isEnabled
    rw [hwl]
  · intro l hwl
    unfold isEnabled
    rw [hwl]
    simp

/-- C3 witness: initialization with the allow-all directive, probed at the
code of stat. -/
theorem C3_isEnabled_whitelist_witness :
    initializeWhiteList emptyFactory WhiteListConfig.allowAllDirective =
      Except.ok allowAllFactory ∧
    (allowAllFactory.initialized = true ∧
     (isEnabled allowAllFactory (codeOfName "stat") = true ↔
       (allowAllFactory.white_list = WhiteList.allowAll ∨
        ∃ l, allowAllFactory.white_list = WhiteList.explicitList l ∧
          codeOfName "stat" ∈ l)) ∧
     (allowAllFactory.white_list = WhiteList.allowAll →
       isKnown allowAllFactory (codeOfName "stat") = true →
       isEnabled allowAllFactory (codeOfName "stat") = true) ∧
     (∀ l, allowAllFactory.white_list = WhiteList.explicitList l →
       (isEnabled allowAllFactory (codeOfName "stat") = true ↔
         codeOfName "stat" ∈ l))) :=
  ⟨rfl, C3_isEnabled_whitelist emptyFactory allowAllFactory
    WhiteListConfig.allowAllDirective rfl (codeOfName "stat")⟩

/-- C6: initialization with absent configuration stores the explicit
allow-all sentinel, raises the flag, and leaves every registered code
enabled. -/
theorem C6_absent_config_allow_all (f f2 : FourLetterCommandFactory)
    (h : initializeWhiteList f WhiteListConfig.absent = Except.ok f2)
    (c : Nat) :
    f2.white_list = WhiteList.allowAll ∧ f2.initialized = true ∧
    (isKnown f2 c = true → isEnabled f2 c = true) := by
  simp only [initializeWhiteList, Except.ok.injEq] at h
  subst h
  exact ⟨rfl, rfl, fun _ => rfl⟩

/-- C6 witness: the sixteen registered commands under absent configuration,
probed at the code of conf. -/
theorem C6_absent_config_allow_all_witness :
    initializeWhiteList registeredFactory WhiteListConfig.absent =
      Except.ok absentConfFactory ∧
    (absentConfFactory.white_list = WhiteList.allowAll ∧
     absentConfFactory.initialized = true ∧
     (isKnown absentConfFactory (codeOfName "conf") = true →
       isEnabled absentConfFactory (codeOfName "conf") = true)) :=
  ⟨rfl, C6_absent_config_allow_all registeredFactory absentConfFactory rfl
    (codeOfName "conf")⟩

/-- C4: whenever a code is known to the registry but not enabled, the
execution protocol runs the reserved nopc command instead of the requested
one, and the response is exactly the fixed advisory text with the dispatcher
state untouched. -/
theorem C4_disabled_runs_nopc (f : FourLetterCommandFactory)
    (st : KeeperDispatcherState) (c : Nat) (hk : isKnown f c = true)
    (hd : isEnabled f c = false) :
    executeRequest f st c = some (nopcAdvisoryText, st) := by
  simp [executeRequest, hk, hd, NopCommand]

/-- C4 witness: the spec 8 scenario — sixteen commands registered, whitelist
restricted to ruok and stat; requesting conf yields the nopc advisory text
verbatim, not the configuration data. -/
theorem C4_disabled_runs_nopc_witness :
    isKnown scenarioFactory (codeOfName "conf") = true ∧
    isEnabled scenarioFactory (codeOfName "conf") = false ∧
    executeRequest scenarioFactory sampleState (codeOfName "conf") =
      some (nopcAdvisoryText, sampleState) ∧
    nopcAdvisoryText ≠ (ConfCommand.run sampleState).1 :=
  ⟨by decide, by decide,
   C4_disabled_runs_nopc scenarioFactory sampleState (codeOfName "conf")
     (by decide) (by decide),
   by decide⟩

/-- Initialization always raises the flag and never touches the command
mapping. -/
theorem initializeWhiteList_flag_commands (f f2 : FourLetterCommandFactory)
    (conf : WhiteListConfig)
    (h : initializeWhiteList f conf = Except.ok f2) :
    f2.initialized = true ∧ f2.commands = f.commands := by
  rcases conf with _ | _ | l
  · simp only [initializeWhiteList, Except.ok.injEq] at h
    subst h
    exact ⟨rfl, rfl⟩
  · simp only [initializeWhiteList, Except.ok.injEq] at h
    subst h
    exact ⟨rfl, rfl⟩
  · simp only [initializeWhiteList] at h
    rcases hcs : codesOfNames l with e | cs
    · simp only [hcs] at h
      exact Except.noConfusion h
    · simp only [hcs, Except.ok.injEq] at h
      subst h
      exact ⟨rfl, rfl⟩

/-- A query operation leaves the factory state unchanged. -/
theorem applyOp_query (f : FourLetterCommandFactory) (op : FactoryOp)
    (h : isQueryOp op = true) : applyOp f op = f := by
  cases op <;> first | rfl | simp [isQueryOp] at h

/-- A sequence of query operations leaves the factory state unchanged. -/
theorem foldl_query_ops (ops : List FactoryOp) (f : FourLetterCommandFactory)
    (h : ∀ op ∈ ops, isQueryOp op = true) : ops.foldl applyOp f = f := by
  induction ops generalizing f with
  | nil => rfl
  | cons op rest ih =>
    rw [List.foldl_cons, applyOp_query f op (h op (by simp))]
    exact ih f (fun o ho => h o (by simp [ho]))

/-- C7 counterexample: the public interface includes setInitialize (header
line 61), whose body assigns the flag, so an operation sequence through the
public interface can unset the flag after initialization — the claim that no
such sequence exists is false. -/
theorem C7_counterexample :
    allowAllFactory.initialized = true ∧
    (applyOp allowAllFactory (FactoryOp.setInitializeFlagOp false)).initialized
      = false :=
  ⟨rfl, rfl⟩

/-- C7 amended: the startup sequence keeps the flag down throughout
registration and raises it at whitelist initialization; afterwards the query
operations of the public interface (isKnown, isEnabled, get, isInitialized,
checkInitialization) never change the factory; the mutators (setInitialize,
registerCommand, initializeWhiteList) remain publicly callable and can still
change it. -/
theorem C7_startup_then_query_immutable (f0 f1 f2 : FourLetterCommandFactory)
    (cmds : List FourLetterCommand) (conf : WhiteListConfig)
    (ops : List FactoryOp) (hreg : registerAll f0 cmds = Except.ok f1)
    (hinit : initializeWhiteList f1 conf = Except.ok f2)
    (hq : ∀ op ∈ ops, isQueryOp op = true) :
    f1.initialized = f0.initialized ∧ f2.initialized = true ∧
    f2.commands = f1.commands ∧ ops.foldl applyOp f2 = f2 :=
  ⟨(registerAll_fields cmds f0 f1 hreg).1,
   (initializeWhiteList_flag_commands f1 f2 conf hinit).1,
   (initializeWhiteList_flag_commands f1 f2 conf hinit).2,
   foldl_query_ops ops f2 hq⟩

/-- C7 witness: the concrete startup sequence over the sixteen commands with
absent whitelist configuration, followed by four query operations. -/
theorem C7_startup_then_query_immutable_witness :
    registerAll emptyFactory allCommands = Except.ok registeredFactory ∧
    initializeWhiteList registeredFactory WhiteListConfig.absent =
      Except.ok absentConfFactory ∧
    (∀ op ∈ [FactoryOp.isKnownOp (codeOfName "ruok"), FactoryOp.getOp 0,
        FactoryOp.isEnabledOp 5, FactoryOp.isInitializedOp],
      isQueryOp op = true) ∧
    (registeredFactory.initialized = emptyFactory.initialized ∧
     absentConfFactory.initialized = true ∧
     absentConfFactory.commands = registeredFactory.commands ∧
     [FactoryOp.isKnownOp (codeOfName "ruok"), FactoryOp.getOp 0,
      FactoryOp.isEnabledOp 5, FactoryOp.isInitializedOp].foldl applyOp
        absentConfFactory = absentConfFactory) :=
  ⟨rfl, rfl, by decide,
   C7_startup_then_query_immutable emptyFactory registeredFactory
     absentConfFactory allCommands WhiteListConfig.absent
     [FactoryOp.isKnownOp (codeOfName "ruok"), FactoryOp.getOp 0,
      FactoryOp.isEnabledOp 5, FactoryOp.isInitializedOp] rfl rfl (by decide)⟩

/-- C8 counterexample: srst is specified (spec 4.4) to reset the packet
counters along with the latency counters, so after srst the mntr packet
counters do not remain unchanged: at the sample state zk_packets_received
drops from 70 to 0. -/
theorem C8_counterexample :
    (mntrFields sampleState).lookup "zk_packets_received" = some "70" ∧
    (mntrFields ((StatResetCommand.run sampleState).2)).lookup
      "zk_packets_received" = some "0" ∧
    ¬ ((mntrFields ((StatResetCommand.run sampleState).2)).lookup
        "zk_packets_received" =
       (mntrFields sampleState).lookup "zk_packets_received") := by
  refine ⟨?_, ?_, ?_⟩ <;> decide

/-- C8 amended: srst zeroes the accumulated latency counters and also the
packet counters, and resets nothing else — connection count, per-connection
counters, watch and node state are unchanged — and subsequent mntr output
shows the zeroed latency and packet counters. -/
theorem C8_srst_resets_counters (st : KeeperDispatcherState) :
    ((StatResetCommand.run st).2.avg_latency = 0 ∧
     (StatResetCommand.run st).2.max_latency = 0 ∧
     (StatResetCommand.run st).2.min_latency = 0 ∧
     (StatResetCommand.run st).2.packets_received = 0 ∧
     (StatResetCommand.run st).2.packets_sent = 0) ∧
    ((StatResetCommand.run st).2.connection_count = st.connection_count ∧
     (StatResetCommand.run st).2.conn_packets = st.conn_packets ∧
     (StatResetCommand.run st).2.watch_count = st.watch_count ∧
     (StatResetCommand.run st).2.znode_count = st.znode_count ∧
     (StatResetCommand.run st).2.ephemerals_count = st.ephemerals_count ∧
     (StatResetCommand.run st).2.role = st.role) ∧
    ((mntrFields (StatResetCommand.run st).2).lookup "zk_avg_latency" =
      some "0" ∧
     (mntrFields (StatResetCommand.run st).2).lookup "zk_max_latency" =
      some "0" ∧
     (mntrFields (StatResetCommand.run st).2).lookup "zk_min_latency" =
      some "0" ∧
     (mntrFields (StatResetCommand.run st).2).lookup "zk_packets_received" =
      some "0" ∧
     (mntrFields (StatResetCommand.run st).2).lookup "zk_packets_sent" =
      some "0") :=
  ⟨⟨rfl, rfl, rfl, rfl, rfl⟩, ⟨rfl, rfl, rfl, rfl, rfl, rfl⟩,
   by simp [StatResetCommand, mntrFields, List.lookup]; decide,
   by simp [StatResetCommand, mntrFields, List.lookup]; decide,
   by simp [StatResetCommand, mntrFields, List.lookup]; decide,
   by simp [StatResetCommand, mntrFields, List.lookup]; decide,
   by simp [StatResetCommand, mntrFields, List.lookup]; decide⟩

/-- C9: the mntr output contains each of the three leader-only keys exactly
when the server role is leader, and omits all three otherwise. -/
theorem C9_mntr_leader_keys (st : KeeperDispatcherState) :
    (("zk_followers" ∈ (mntrFields st).map Prod.fst) ↔
      st.role = ServerRole.leader) ∧
    (("zk_synced_followers" ∈ (mntrFields st).map Prod.fst) ↔
      st.role = ServerRole.leader) ∧
    (("zk_pending_syncs" ∈ (mntrFields st).map Prod.fst) ↔
      st.role = ServerRole.leader) := by
  rcases hrole : st.role <;> simp [mntrFields, hrole]

/-- C10: the sixteen command names are exactly 4 printable ASCII characters
each and pairwise distinct, toCode succeeds on each so registration never
raises InvalidCommandName, the sixteen codes are pairwise distinct so bulk
registration succeeds without a duplicate-registration fault, and every code
differs from the allow-all sentinel WHITE_LIST_ALL = 0. -/
theorem C10_sixteen_names_wellformed :
    allCommands.length = 16 ∧
    (∀ cmd ∈ allCommands,
      cmd.name.length = 4 ∧ ∀ x ∈ cmd.name, 32 ≤ x ∧ x ≤ 126) ∧
    (allCommands.map FourLetterCommand.name).Pairwise (fun a b => a ≠ b) ∧
    (∀ cmd ∈ allCommands, (toCode cmd.name).toOption.isSome = true) ∧
    (allCommands.map commandCode).Pairwise (fun a b => a ≠ b) ∧
    (∀ cmd ∈ allCommands, commandCode cmd ≠ WHITE_LIST_ALL) ∧
    (registerAll emptyFactory allCommands).toOption.isSome = true := by
  decide

end FourLetter
